import Mathlib

/-
Verification of the decision logic of `src/django-skill-correct/main.py`
(class `DjangoIssueAutomation`).

The Python program inspects a project tree and its documentation before a
code change: it parses the issue text, checks documentation claims against
the source, scans affected files for pre-existing problems, derives
clarification questions and breaking-change notes, and returns exactly one
result dictionary whose "status" field identifies the halt outcome.

Shallow embedding conventions:
  - The filesystem is abstracted into an `Env`: the project tree is a list
    of files (path relative to the project root, text content) in glob
    enumeration order, and the parsed configuration dictionaries produced
    by `_deep_documentation_read` (an I/O collaborator in the spec) are
    given as structures of optional fields mirroring the dict keys that
    `_parse_pii_docs` / `_parse_magika_docs` / `_parse_logging_docs` may set.
  - Python's `'pat' in s` substring test is `strContains`; `s.lower()` and
    `s.upper()` are `pyLower` / `pyUpper`; `s.strip()` is `pyStrip`;
    `s.split('\n')` is `pyLines`.
  - The `'test' in str(py_file)` checks of the source test the absolute
    path; we model the project root itself as free of the substrings
    "test" and "migration", so the check runs on the relative path.
  - `list(set(features))` in `_extract_feature_names` enumerates a Python
    set, whose order is not fixed across processes; the pipeline therefore
    takes a `shuffle` oracle producing that enumeration.
  - The feature-documentation validators `_check_endpoint_exists`,
    `_check_model_exists`, `_verify_pii_implementation`,
    `_verify_magika_implementation`, `_verify_logging_implementation`,
    `_verify_function_exists` and `_verify_class_exists` are `pass` stubs
    in the source: they produce nothing, so the feature-documentation pass
    contributes no discrepancies and only the count of feature folders
    read survives into the final plan.
-/

/-! ## String utilities mirroring the Python primitives -/

/-- Boolean test that `pat` occurs as a contiguous run inside `s`
(Python `pat in s`). -/
def subOccurs (pat : List Char) : List Char → Bool
  | [] => pat.isEmpty
  | c :: rest => List.isPrefixOf pat (c :: rest) || subOccurs pat rest

/-- Python `pat in s` on strings. -/
def strContains (s pat : String) : Bool := subOccurs pat.data s.data

/-- Python `s.lower()` (ASCII, which covers every pattern the program uses). -/
def pyLower (s : String) : String := String.mk (s.data.map Char.toLower)

/-- Python `s.upper()`. -/
def pyUpper (s : String) : String := String.mk (s.data.map Char.toUpper)

/-- Python whitespace class `\s` over ASCII: space, tab, newline, carriage
return, vertical tab, form feed. -/
def isSpaceCh (c : Char) : Bool :=
  c == ' ' || c == '\t' || c == '\n' || c == '\r' || c == '\x0b' || c == '\x0c'

/-- Python `s.strip()`. -/
def pyStrip (s : String) : String :=
  String.mk (((s.data.dropWhile isSpaceCh).reverse.dropWhile isSpaceCh).reverse)

/-- Split a character list at every occurrence of `sep` (keeping empty
pieces, like Python `str.split(sep)` with a one-character separator). -/
def splitChAux (sep : Char) (cur : List Char) : List Char → List (List Char)
  | [] => [cur.reverse]
  | c :: rest =>
    if c == sep then cur.reverse :: splitChAux sep [] rest
    else splitChAux sep (c :: cur) rest

/-- Python `s.split('\n')`. -/
def pyLines (s : String) : List String := (splitChAux '\n' [] s.data).map String.mk

/-- Last path component (`pathlib.Path.name`). -/
def fileName (path : String) : String :=
  ((splitChAux '/' [] path.data).map String.mk).getLastD path

/-- Python `s.endswith(suf)`. -/
def endsWithStr (s suf : String) : Bool :=
  List.isPrefixOf suf.data.reverse s.data.reverse

/-! ## Data model (`main.py` lines 15-58) -/

/-- `IssueType` enum (`main.py` lines 15-22). -/
inductive IssueType where
  | todo
  | deprecated
  | security
  | bug
  | performance
  | documentation
deriving DecidableEq, BEq

/-- `UnrelatedIssue` dataclass (`main.py` lines 24-31): a finding produced
by the issue scanner. `severity` is the literal string the source stores. -/
structure UnrelatedIssue where
  type : IssueType
  file : String
  line : Nat
  description : String
  severity : String
deriving DecidableEq

/-- `DocumentationDiscrepancy` dataclass (`main.py` lines 33-39). -/
structure DocumentationDiscrepancy where
  doc_file : String
  doc_statement : String
  actual_code : String
  suggestion : String
deriving DecidableEq

/-- A source file of the project tree: root-relative path and text content. -/
structure PyFile where
  path : String
  content : String
deriving DecidableEq

/-- Result of `_parse_pii_docs` (`main.py` lines 224-246): the keys the
parser may set in the `pii_config` dict.  A field left at its default
models the key being absent from the dict; the whole dict is empty (falsy)
exactly when every field is at its default. -/
structure PiiConfig where
  masking_function : Option String := none
  import_from : Option String := none
  mask_email : Bool := false
  mask_phone : Bool := false
  mask_ssn : Bool := false
deriving DecidableEq

/-- Python truthiness of the `pii_config` dict. -/
def PiiConfig.isSet (c : PiiConfig) : Bool :=
  c.masking_function.isSome || c.import_from.isSome ||
  c.mask_email || c.mask_phone || c.mask_ssn

/-- Result of `_parse_magika_docs` (`main.py` lines 248-267). -/
structure MagikaConfig where
  validation_function : Option String := none
  validate_uploads : Bool := false
  validate_attachments : Bool := false
  import_from : Option String := none
deriving DecidableEq

/-- Python truthiness of the `magika_config` dict. -/
def MagikaConfig.isSet (c : MagikaConfig) : Bool :=
  c.validation_function.isSome || c.validate_uploads ||
  c.validate_attachments || c.import_from.isSome

/-- Result of `_parse_logging_docs` (`main.py` lines 269-293). -/
structure LoggingConfig where
  logger_function : Option String := none
  log_format : Option String := none
  import_from : Option String := none
  supports_debug : Bool := false
  has_audit_logging : Bool := false
deriving DecidableEq

/-- Python truthiness of the `logging_config` dict. -/
def LoggingConfig.isSet (c : LoggingConfig) : Bool :=
  c.logger_function.isSome || c.log_format.isSome || c.import_from.isSome ||
  c.supports_debug || c.has_audit_logging

/-- The inputs a pipeline invocation reads from the outside world: the
project tree (in glob enumeration order), the three topic configurations
built by `_deep_documentation_read`, and the names of the subdirectories
of `docs/` (for `_extract_feature_names`). -/
structure Env where
  tree : List PyFile
  piiConfig : PiiConfig := {}
  magikaConfig : MagikaConfig := {}
  loggingConfig : LoggingConfig := {}
  docsDirs : List String := []
deriving DecidableEq

/-- One `(method, path)` endpoint entry of `issue_data['endpoints']`. -/
structure Endpoint where
  method : String
  path : String
deriving DecidableEq

/-- The `issue_data` dict built by `_parse_issue` (`main.py` lines 620-654). -/
structure IssueData where
  description : String
  number : Option String
  requirements : List String
  has_pii : Bool
  needs_auth : Bool
  endpoints : List Endpoint
  models : List String
deriving DecidableEq

/-- The result dictionary returned by `work_on_issue`, as a closed union:
one constructor per `"status"` value the source can return, carrying the
other keys of the corresponding dict. -/
inductive Outcome where
  | documentationMismatch (discrepancies : List DocumentationDiscrepancy)
      (questions : List String) (message : String)
  | unrelatedIssuesFound (critical high medium low : List UnrelatedIssue)
      (options : List String) (message : String)
  | needClarification (questions : List String) (message : String)
  | breakingChangesWarning (changes : List String) (message : String)
  | approvalNeeded (plan : String) (message : String)
deriving DecidableEq

/-- The `"status"` field of the returned dictionary. -/
def Outcome.status : Outcome → String
  | documentationMismatch _ _ _ => "documentation_mismatch"
  | unrelatedIssuesFound _ _ _ _ _ _ => "unrelated_issues_found"
  | needClarification _ _ => "need_clarification"
  | breakingChangesWarning _ _ => "breaking_changes_warning"
  | approvalNeeded _ _ => "approval_needed"

/-! ## `_parse_issue` (`main.py` lines 620-654) -/

/-- Case-insensitive literal match of `pat` at the head of `cs`; returns
the remainder on success. -/
def ciMatchStart : List Char → List Char → Option (List Char)
  | [], cs => some cs
  | _ :: _, [] => none
  | p :: ps, c :: cs =>
    if Char.toLower c == Char.toLower p then ciMatchStart ps cs else none

/-- Leftmost match of the regex `#(\d+)`: first `#` that is followed by at
least one digit; the group is the maximal digit run. -/
def findHashNumber : List Char → Option String
  | [] => none
  | '#' :: rest =>
    let ds := rest.takeWhile Char.isDigit
    if ds.isEmpty then findHashNumber rest else some (String.mk ds)
  | _ :: rest => findHashNumber rest

/-- Leftmost match of the regex `issue\s+(\d+)` with `re.I`. -/
def findIssueNumber : List Char → Option String
  | [] => none
  | c :: cs =>
    match ciMatchStart "issue".data (c :: cs) with
    | some rest =>
      let ws := rest.takeWhile isSpaceCh
      let ds := (rest.dropWhile isSpaceCh).takeWhile Char.isDigit
      if ws.isEmpty || ds.isEmpty then findIssueNumber cs else some (String.mk ds)
    | none => findIssueNumber cs

/-- `\w` of the endpoint regex. -/
def isWordCh (c : Char) : Bool := c.isAlphanum || c == '_'

/-- Character class `[\w/\{\}]` of the endpoint path group. -/
def isPathCh (c : Char) : Bool := isWordCh c || c == '/' || c == '{' || c == '}'

/-- The HTTP verbs of the endpoint regex alternation, in pattern order.
No verb is a prefix of another and no two can match at the same position,
so first-match equals the regex alternation semantics. -/
def httpVerbs : List String := ["GET", "POST", "PUT", "PATCH", "DELETE"]

/-- Try each verb of the alternation case-insensitively at the current
position; `group(1).upper()` of a case-insensitive verb match is the
canonical verb itself. -/
def matchVerbFrom : List String → List Char → Option (String × List Char)
  | [], _ => none
  | v :: vs, cs =>
    match ciMatchStart v.data cs with
    | some rest => some (v, rest)
    | none => matchVerbFrom vs cs

/-- Match `(GET|POST|PUT|PATCH|DELETE)\s+(/[\w/\{\}]+)` (with `re.I`)
anchored at the current position; on success returns the uppercased verb,
the path group and the remainder of the input after the match. -/
def matchEndpointAt (cs : List Char) : Option (String × String × List Char) :=
  match matchVerbFrom httpVerbs cs with
  | none => none
  | some (v, rest1) =>
    let ws := rest1.takeWhile isSpaceCh
    let rest2 := rest1.dropWhile isSpaceCh
    if ws.isEmpty then none
    else
      match rest2 with
      | '/' :: rest3 =>
        let body := rest3.takeWhile isPathCh
        if body.isEmpty then none
        else some (v, String.mk ('/' :: body), rest3.dropWhile isPathCh)
      | _ => none

/-- `re.finditer` over the endpoint pattern: non-overlapping leftmost
matches, resuming after each match, advancing one character on failure.
The fuel is the input length, which bounds the number of steps because
every step consumes at least one character. -/
def findEndpointsAux : Nat → List Char → List (String × String)
  | 0, _ => []
  | _, [] => []
  | Nat.succ n, c :: cs =>
    match matchEndpointAt (c :: cs) with
    | some (v, p, rest) => (v, p) :: findEndpointsAux n rest
    | none => findEndpointsAux n cs

/-- All endpoint matches in the issue description (`main.py` lines 648-654). -/
def findEndpoints (s : String) : List Endpoint :=
  (findEndpointsAux s.data.length s.data).map (fun vp => ⟨vp.1, vp.2⟩)

/-- The PII keyword list of `_parse_issue` (`main.py` line 644). -/
def piiKeywords : List String := ["personal", "pii", "email", "phone", "ssn", "payment"]

/-- Whether a stripped line starts a requirement bullet (`main.py` line 640). -/
def isRequirementLine : List Char → Bool
  | c :: _ => c == '-' || c == '*' || c == '•'
  | [] => false

/-- `_parse_issue` (`main.py` lines 620-654).  Note that the source
initialises `issue_data['models']` to the empty list and no code ever
appends to it. -/
def parse_issue (description : String) : IssueData :=
  { description := description
  , number :=
      match findHashNumber description.data with
      | some n => some n
      | none => findIssueNumber description.data
  , requirements :=
      (pyLines description).filterMap (fun line =>
        let st := pyStrip line
        if isRequirementLine st.data then some (pyStrip (String.mk (st.data.drop 1)))
        else none)
  , has_pii := piiKeywords.any (fun kw => strContains (pyLower description) kw)
  , needs_auth := false
  , endpoints := findEndpoints description
  , models := [] }

/-! ## Globbing over the modelled tree -/

/-- `project_root.glob("**/*.py")`: every file whose name ends in `.py`,
in tree (enumeration) order. -/
def glob_py (tree : List PyFile) : List PyFile :=
  tree.filter (fun f => endsWithStr (fileName f.path) ".py")

/-- `project_root.glob("**/<name>")` for a fixed file name such as
`views.py`, `urls.py`, `serializers.py` or `models.py`. -/
def glob_named (name : String) (tree : List PyFile) : List PyFile :=
  tree.filter (fun f => fileName f.path == name)

/-! ## Consistency checker (`main.py` lines 377-452) -/

/-- The usage signal of `_validate_pii_usage` (`main.py` line 407). -/
def pii_signal (content : String) : Bool :=
  ["email", "phone", "ssn", "personal"].any (fun w => strContains (pyLower content) w)

/-- Per-file body of the `_validate_pii_usage` loop (`main.py` lines
400-415), including the `'test' in str(py_file)` skip. -/
def pii_file_check (cfg : PiiConfig) (f : PyFile) : List DocumentationDiscrepancy :=
  if strContains f.path "test" then []
  else if pii_signal f.content then
    let masker := cfg.masking_function.getD "GlobalPIIMasker"
    if strContains f.content masker then []
    else
      [{ doc_file := "docs/security/pii_masking.md"
       , doc_statement := "All PII should use " ++ masker
       , actual_code := fileName f.path ++ " handles PII but doesn\x27t import " ++ masker
       , suggestion := "Add: from " ++ cfg.import_from.getD "utils.pii" ++ " import " ++ masker }]
  else []

/-- `_validate_pii_usage` (`main.py` lines 397-415). -/
def validate_pii_usage (env : Env) : List DocumentationDiscrepancy :=
  (glob_py env.tree).flatMap (pii_file_check env.piiConfig)

/-- The upload signal of `_validate_magika_usage` (`main.py` line 424). -/
def upload_signal (content : String) : Bool :=
  strContains content "FileField" || strContains content "ImageField" ||
  strContains content "request.FILES"

/-- Per-file body of the `_validate_magika_usage` loop (`main.py` lines
420-432).  Unlike the PII and logging checks, this loop has no test-path
skip. -/
def magika_file_check (cfg : MagikaConfig) (f : PyFile) : List DocumentationDiscrepancy :=
  if upload_signal f.content then
    let validator := cfg.validation_function.getD "validate_with_magika"
    if strContains f.content validator then []
    else
      [{ doc_file := "docs/validation/magika.md"
       , doc_statement := "All file uploads should use " ++ validator
       , actual_code := fileName f.path ++ " handles files but doesn\x27t call " ++ validator
       , suggestion := "Add validation: " ++ validator ++ "(uploaded_file)" }]
  else []

/-- `_validate_magika_usage` (`main.py` lines 417-432): scans `**/views.py`. -/
def validate_magika_usage (env : Env) : List DocumentationDiscrepancy :=
  (glob_named "views.py" env.tree).flatMap (magika_file_check env.magikaConfig)

/-- The logging signal of `_validate_logging_usage` (`main.py` line 444). -/
def logging_signal (content : String) : Bool :=
  strContains content "print(" || strContains content "logging.info"

/-- Per-file body of the `_validate_logging_usage` loop (`main.py` lines
437-452), including the test/migration skip. -/
def logging_file_check (cfg : LoggingConfig) (f : PyFile) : List DocumentationDiscrepancy :=
  if strContains f.path "test" || strContains f.path "migration" then []
  else if logging_signal f.content then
    let logger := cfg.logger_function.getD "get_logger"
    if strContains f.content logger then []
    else
      [{ doc_file := "docs/infrastructure/logging.md"
       , doc_statement := "Use centralized logging with " ++ logger
       , actual_code := fileName f.path ++ " uses print/basic logging instead of " ++ logger
       , suggestion := "Replace with: logger = " ++ logger ++ "(__name__)" }]
  else []

/-- `_validate_logging_usage` (`main.py` lines 434-452): scans `**/*.py`. -/
def validate_logging_usage (env : Env) : List DocumentationDiscrepancy :=
  (glob_py env.tree).flatMap (logging_file_check env.loggingConfig)

/-- `_validate_documentation_against_code` (`main.py` lines 377-395): each
topic validator runs only when its required symbol was found in the
documentation; the feature-documentation consistency loop calls only
`pass`-stub verifiers and contributes nothing. -/
def validate_documentation_against_code (env : Env) : List DocumentationDiscrepancy :=
  (match env.piiConfig.masking_function with
   | some _ => validate_pii_usage env
   | none => [])
  ++ (match env.magikaConfig.validation_function with
      | some _ => validate_magika_usage env
      | none => [])
  ++ (match env.loggingConfig.logger_function with
      | some _ => validate_logging_usage env
      | none => [])

/-! ## Issue scanner (`main.py` lines 470-549) -/

/-- The hardcoded-password rule condition (`main.py` lines 525-526): a
`password=` assignment (case-insensitive) on a line holding a double
quote, with no `getenv`/`environ` environment lookup on the line. -/
def pw_condition (line : String) : Bool :=
  strContains (pyLower line) "password=" && strContains line "\"" &&
  !(strContains line "getenv") && !(strContains line "environ")

/-- The five content rules applied to one line (`main.py` lines 481-533),
in source order; each rule fires independently of the others. -/
def scan_line (file : String) (ln : Nat) (line : String) : List UnrelatedIssue :=
  (if strContains line "TODO" || strContains line "FIXME" then
    [{ type := IssueType.todo, file := file, line := ln
     , description := pyStrip line, severity := "low" }]
   else [])
  ++ (if strContains (pyLower line) "deprecated" || strContains line "@deprecated" then
    [{ type := IssueType.deprecated, file := file, line := ln
     , description := "Using deprecated function/method", severity := "medium" }]
   else [])
  ++ (if strContains line "eval(" || strContains line "exec(" then
    [{ type := IssueType.security, file := file, line := ln
     , description := "Potential security issue: eval/exec usage", severity := "high" }]
   else [])
  ++ (if strContains line ".format(" && strContains (pyUpper line) "SELECT" then
    [{ type := IssueType.security, file := file, line := ln
     , description := "Potential SQL injection: string formatting in query", severity := "critical" }]
   else [])
  ++ (if pw_condition line then
    [{ type := IssueType.security, file := file, line := ln
     , description := "Hardcoded password detected", severity := "critical" }]
   else [])

/-- Scan one file: every line in order, 1-based line numbers
(`main.py` lines 477-482). -/
def scan_file (file : String) (content : String) : List UnrelatedIssue :=
  (pyLines content).enum.flatMap (fun p => scan_line file (p.1 + 1) p.2)

/-- `_get_affected_files` (`main.py` lines 535-549): model files when the
issue mentions models, request-handling files when it mentions endpoints. -/
def get_affected_files (env : Env) (issue : IssueData) : List PyFile :=
  (if issue.models.isEmpty then [] else glob_named "models.py" env.tree)
  ++ (if issue.endpoints.isEmpty then []
      else glob_named "views.py" env.tree ++ glob_named "urls.py" env.tree
           ++ glob_named "serializers.py" env.tree)

/-- `_scan_for_unrelated_issues` (`main.py` lines 470-533). -/
def scan_for_unrelated_issues (env : Env) (issue : IssueData) : List UnrelatedIssue :=
  (get_affected_files env issue).flatMap (fun f => scan_file f.path f.content)

/-! ## Clarification questions and breaking changes (`main.py` lines 656-695) -/

/-- `_get_clarification_questions` (`main.py` lines 656-682), in source
append order. -/
def get_clarification_questions (env : Env) (issue : IssueData) : List String :=
  (if issue.number.isNone then ["What\x27s the issue number for branch naming?"] else [])
  ++ (if issue.has_pii then
        match env.piiConfig.masking_function with
        | some m => ["Should I use " ++ m ++ " for PII as documented?"]
        | none => ["How should PII be handled? I didn\x27t find PII masking docs."]
      else [])
  ++ (if strContains (pyLower issue.description) "upload" then
        match env.magikaConfig.validation_function with
        | some v => ["Should file uploads use " ++ v ++ "?"]
        | none => ["Should uploaded files be validated? I didn\x27t find Magika docs."]
      else [])
  ++ (if env.loggingConfig.logger_function.isNone then
        ["What logging system should I use? I didn\x27t find centralized logging docs."]
      else [])

/-- `_check_breaking_changes` (`main.py` lines 684-695): for every model
name of `issue_data['models']`, every `models.py` file already defining a
class of that name yields a note. -/
def check_breaking_changes (env : Env) (issue : IssueData) : List String :=
  issue.models.flatMap (fun model =>
    (glob_named "models.py" env.tree).filterMap (fun mf =>
      if strContains mf.content ("class " ++ model) then
        some ("Model \x27" ++ model ++ "\x27 already exists in " ++ mf.path)
      else none))

/-! ## Feature extraction (`main.py` lines 295-340) -/

/-- The fixed keyword list of `_extract_feature_names` (`main.py` line 326). -/
def featureKeywords : List String :=
  ["user", "auth", "payment", "profile", "api", "admin", "report", "notification"]

/-- `_extract_feature_names` before the `list(set(...))` deduplication
(`main.py` lines 321-340): keyword hits, then non-hidden `docs/`
subdirectory names occurring in the lowered description. -/
def extract_feature_names (env : Env) (issue : IssueData) : List String :=
  featureKeywords.filter (fun kw => strContains (pyLower issue.description) kw)
  ++ env.docsDirs.filter (fun n =>
      !(List.isPrefixOf ".".data n.data) && strContains (pyLower issue.description) n)

/-- Number of feature-documentation folders read by
`_read_feature_documentation` (`main.py` lines 295-319): the features of
the (deduplicated, arbitrarily ordered) list whose `docs/<feature>`
directory exists.  This count is all that survives of the feature pass,
because every verifier it calls is a `pass` stub. -/
def featureDocsCount (env : Env) (features : List String) : Nat :=
  (features.filter (fun f => env.docsDirs.contains f)).length

/-! ## Halt handlers and the final plan (`main.py` lines 551-618, 697-770) -/

/-- One numbered block of `_handle_documentation_discrepancies`
(`main.py` lines 556-559). -/
def disc_block (i : Nat) (d : DocumentationDiscrepancy) : List String :=
  ["\n" ++ toString i ++ ". Documentation says: " ++ d.doc_statement,
   "   But I found: " ++ d.actual_code,
   "   Should I: " ++ d.suggestion ++ "?"]

/-- `_handle_documentation_discrepancies` (`main.py` lines 551-571). -/
def handle_documentation_discrepancies (discs : List DocumentationDiscrepancy) : Outcome :=
  Outcome.documentationMismatch discs
    (["I found discrepancies between documentation and actual code:\n"]
     ++ (discs.take 5).enum.flatMap (fun p => disc_block (p.1 + 1) p.2)
     ++ (if discs.length > 5 then
          ["\n...and " ++ toString (discs.length - 5) ++ " more discrepancies."]
         else [])
     ++ ["\nHow should I handle these? Fix them, or follow existing code?"])
    "Documentation doesn\x27t match code - need guidance"

/-- One preview line of `_handle_unrelated_issues` (`main.py` line 587). -/
def issue_line (i : UnrelatedIssue) : String :=
  "  - " ++ i.file ++ ":" ++ toString i.line ++ " - " ++ i.description ++ "\n"

/-- The fixed remediation menu (`main.py` lines 600-606). -/
def unrelated_options : List String :=
  ["1. Fix critical issues now, flag others in PR",
   "2. Create separate issues for all findings",
   "3. Flag all in PR comments for later",
   "4. Ignore for now (not recommended for critical issues)",
   "5. Let me handle each severity level differently"]

/-- `_handle_unrelated_issues` (`main.py` lines 573-618): bucket the
findings by severity and build the summary message (critical and high
previews limited to two entries each). -/
def handle_unrelated_issues (issues : List UnrelatedIssue) : Outcome :=
  let critical := issues.filter (fun i => i.severity == "critical")
  let high := issues.filter (fun i => i.severity == "high")
  let medium := issues.filter (fun i => i.severity == "medium")
  let low := issues.filter (fun i => i.severity == "low")
  Outcome.unrelatedIssuesFound critical high medium low unrelated_options
    ("I found unrelated issues while reviewing the code:\n"
     ++ (if critical.isEmpty then "" else
          "\n🔴 CRITICAL (" ++ toString critical.length ++ " issues):\n"
          ++ String.join ((critical.take 2).map issue_line))
     ++ (if high.isEmpty then "" else
          "\n🟠 HIGH (" ++ toString high.length ++ " issues):\n"
          ++ String.join ((high.take 2).map issue_line))
     ++ (if medium.isEmpty then "" else
          "\n🟡 MEDIUM (" ++ toString medium.length ++ " issues)\n")
     ++ (if low.isEmpty then "" else
          "\n🟢 LOW (" ++ toString low.length ++ " issues - mostly TODOs)\n")
     ++ "\n\nHow should I handle these? (Choose 1-5)")

/-- `'Yes' if b else 'No'`. -/
def yes_no (b : Bool) : String := if b then "Yes" else "No"

/-- `_create_validated_plan` (`main.py` lines 697-770).  The issue-number
interpolation reads the dict key `number`, which is always present (set to
`None` by `_parse_issue` when no number was found), so the `'TBD'` default
of `.get` is dead and an absent number renders as `None`. -/
def create_validated_plan (issue : IssueData) (pii : PiiConfig) (magika : MagikaConfig)
    (logging : LoggingConfig) (fdCount : Nat) (unrelated : List UnrelatedIssue) : String :=
  "# Implementation Plan (Validated Against Documentation)\n\n## Issue Details\n- Number: #"
  ++ (match issue.number with | some n => n | none => "None")
  ++ "\n- Has PII: " ++ yes_no issue.has_pii
  ++ "\n\n## Documentation Validation Status\n- ✅ Read " ++ toString fdCount
  ++ " feature documentation folders\n- ✅ Validated against existing code\n- ✅ Checked for unrelated issues\n"
  ++ (if issue.has_pii && pii.isSet then
        "\n## PII Handling (Per Documentation)\n- Will use: "
        ++ pii.masking_function.getD "GlobalPIIMasker"
        ++ "\n- Import from: " ++ pii.import_from.getD "utils.pii"
        ++ "\n- Fields to mask: email, phone, SSN\n"
      else "")
  ++ (if strContains (pyLower issue.description) "upload" && magika.isSet then
        "\n## File Validation (Per Documentation)  \n- Will use: "
        ++ magika.validation_function.getD "validate_with_magika"
        ++ "\n- Import from: " ++ magika.import_from.getD "utils.validation"
        ++ "\n- Validate all uploads before processing\n"
      else "")
  ++ (if logging.isSet then
        "\n## Logging (Per Documentation)\n- Will use: "
        ++ logging.logger_function.getD "get_logger"
        ++ "\n- Import from: " ++ logging.import_from.getD "utils.logging"
        ++ "\n- No print statements, only centralized logging\n"
      else "")
  ++ (if !unrelated.isEmpty &&
         (unrelated.filter (fun i => i.severity == "critical")).length > 0 then
        "\n## ⚠️  Critical Issues Found (Will Flag in PR)\n- "
        ++ toString (unrelated.filter (fun i => i.severity == "critical")).length
        ++ " critical security issues to address\n- Will add PR comments for tracking\n"
      else "")
  ++ "\n## Implementation Steps\n1. Create feature branch per workflow\n2. Implement with documentation compliance\n3. Use global PII masking where needed\n4. Add Magika validation for uploads\n5. Use centralized logging throughout\n6. Generate tests (>85% coverage)\n7. Flag any unrelated issues in PR\n8. Create comprehensive documentation\n\n## What I Will NOT Do\n- Ignore documentation requirements\n- Use print statements instead of logging\n- Skip PII masking\n- Allow unvalidated file uploads\n- Leave critical issues unflagged\n\n**This plan is validated against your documentation. Proceed? (yes/no)**\n"

/-! ## Pipeline controller (`work_on_issue`, `main.py` lines 60-126) -/

/-- `work_on_issue` (`main.py` lines 60-126): the staged controller.
`shuffle` is the enumeration oracle for `list(set(features))` in
`_extract_feature_names` (Python set ordering is not fixed across
processes); a faithful oracle returns a permutation of the deduplicated
feature list.  Stage order: consistency check, issue scan, clarification
questions, breaking changes, plan. -/
def work_on_issue (env : Env) (shuffle : List String → List String)
    (description : String) : Outcome :=
  if (validate_documentation_against_code env).isEmpty then
    if (scan_for_unrelated_issues env (parse_issue description)).isEmpty then
      if (get_clarification_questions env (parse_issue description)).isEmpty then
        if (check_breaking_changes env (parse_issue description)).isEmpty then
          Outcome.approvalNeeded
            (create_validated_plan (parse_issue description) env.piiConfig
              env.magikaConfig env.loggingConfig
              (featureDocsCount env (shuffle (extract_feature_names env (parse_issue description))))
              (scan_for_unrelated_issues env (parse_issue description)))
            "Implementation plan (validated against your docs). Proceed? (yes/no)"
        else
          Outcome.breakingChangesWarning (check_breaking_changes env (parse_issue description))
            "⚠️  These changes might break existing code. Continue?"
      else
        Outcome.needClarification (get_clarification_questions env (parse_issue description))
          "I need clarification on these points:"
    else handle_unrelated_issues (scan_for_unrelated_issues env (parse_issue description))
  else handle_documentation_discrepancies (validate_documentation_against_code env)

/-! ## General helper lemmas -/

/-- A non-nil list is not `isEmpty`. -/
theorem isEmpty_false_of_ne_nil {α : Type} {l : List α} (h : l ≠ []) : l.isEmpty = false := by
  cases l with
  | nil => exact absurd rfl h
  | cons x t => rfl

/-- The discrepancy handler always reports status `documentation_mismatch`. -/
theorem status_handle_docs (discs : List DocumentationDiscrepancy) :
    (handle_documentation_discrepancies discs).status = "documentation_mismatch" := rfl

/-- The unrelated-issue handler always reports status `unrelated_issues_found`. -/
theorem status_handle_unrelated (issues : List UnrelatedIssue) :
    (handle_unrelated_issues issues).status = "unrelated_issues_found" := rfl

/-- `_parse_issue` stores the raw description unchanged. -/
theorem parse_issue_description (d : String) : (parse_issue d).description = d := rfl

/-- `_parse_issue` never fills `issue_data['models']`: no statement of the
source appends to the list it initialises. -/
theorem parse_issue_models (d : String) : (parse_issue d).models = [] := rfl

/-- Every discrepancy of the PII validator cites the PII document. -/
theorem mem_validate_pii_doc_file (env : Env) :
    ∀ disc ∈ validate_pii_usage env, disc.doc_file = "docs/security/pii_masking.md" := by
  intro disc hd
  unfold validate_pii_usage at hd
  rw [List.mem_flatMap] at hd
  obtain ⟨f, _, hf⟩ := hd
  unfold pii_file_check at hf
  split_ifs at hf <;> simp_all

/-- Every discrepancy of the Magika validator cites the Magika document. -/
theorem mem_validate_magika_doc_file (env : Env) :
    ∀ disc ∈ validate_magika_usage env, disc.doc_file = "docs/validation/magika.md" := by
  intro disc hd
  unfold validate_magika_usage at hd
  rw [List.mem_flatMap] at hd
  obtain ⟨f, _, hf⟩ := hd
  unfold magika_file_check at hf
  split_ifs at hf <;> simp_all

/-- Every discrepancy of the logging validator cites the logging document. -/
theorem mem_validate_logging_doc_file (env : Env) :
    ∀ disc ∈ validate_logging_usage env, disc.doc_file = "docs/infrastructure/logging.md" := by
  intro disc hd
  unfold validate_logging_usage at hd
  rw [List.mem_flatMap] at hd
  obtain ⟨f, _, hf⟩ := hd
  unfold logging_file_check at hf
  split_ifs at hf <;> simp_all

/-- Every discrepancy of the whole consistency check comes from one of the
three topic validators, and only from a validator whose required symbol
was found in the documentation. -/
theorem mem_validate_doc_file_cases (env : Env) :
    ∀ disc ∈ validate_documentation_against_code env,
      (disc.doc_file = "docs/security/pii_masking.md"
        ∧ env.piiConfig.masking_function.isSome = true) ∨
      (disc.doc_file = "docs/validation/magika.md"
        ∧ env.magikaConfig.validation_function.isSome = true) ∨
      (disc.doc_file = "docs/infrastructure/logging.md"
        ∧ env.loggingConfig.logger_function.isSome = true) := by
  intro disc hd
  unfold validate_documentation_against_code at hd
  simp only [List.mem_append] at hd
  rcases hd with (h | h) | h
  · cases hp : env.piiConfig.masking_function with
    | none => rw [hp] at h; simp at h
    | some m =>
      rw [hp] at h
      exact Or.inl ⟨mem_validate_pii_doc_file env disc h, rfl⟩
  · cases hm : env.magikaConfig.validation_function with
    | none => rw [hm] at h; simp at h
    | some v =>
      rw [hm] at h
      exact Or.inr (Or.inl ⟨mem_validate_magika_doc_file env disc h, rfl⟩)
  · cases hl : env.loggingConfig.logger_function with
    | none => rw [hl] at h; simp at h
    | some g =>
      rw [hl] at h
      exact Or.inr (Or.inr ⟨mem_validate_logging_doc_file env disc h, rfl⟩)

/-- The PII clarification question the code emits (`main.py` lines 665-669):
its text depends on whether a masking function was documented. -/
def pii_question (env : Env) : String :=
  match env.piiConfig.masking_function with
  | some m => "Should I use " ++ m ++ " for PII as documented?"
  | none => "How should PII be handled? I didn\x27t find PII masking docs."

/-- Whenever the issue touches PII, the clarification list contains the
PII question, whether or not a masking policy is documented. -/
theorem pii_question_mem (env : Env) (issue : IssueData) (h : issue.has_pii = true) :
    pii_question env ∈ get_clarification_questions env issue := by
  unfold get_clarification_questions pii_question
  cases hm : env.piiConfig.masking_function <;> simp [h, hm, List.mem_append]

/-- The count of feature-documentation folders read is invariant under
permutation of the feature enumeration. -/
theorem featureDocsCount_perm (env : Env) {l₁ l₂ : List String} (h : l₁.Perm l₂) :
    featureDocsCount env l₁ = featureDocsCount env l₂ :=
  (h.filter (fun f => env.docsDirs.contains f)).length_eq

/-! ## Concrete inputs used by the scenario claims and the witnesses -/

/-- The scenario issue text of the spec (§8). -/
def d_c5 : String := "Add endpoint POST /users/\x7bid\x7d/export - exports personal data, #42"

/-- A project with an empty tree and no documentation at all. -/
def env_c5 : Env := { tree := [] }

/-- A project whose only file both violates the documented PII policy and
carries a TODO marker, so the consistency checker and the scanner each
produce a finding. -/
def env_w1 : Env :=
  { tree := [⟨"app/views.py", "email = TODO"⟩]
  , piiConfig := { masking_function := some "GlobalPIIMasker" } }

/-- A line carrying both a hardcoded password and a string-formatted SQL
query, firing two distinct critical security rules. -/
def c3_line : String := "q = \"SELECT * FROM t\".format(password=\"x\")"

/-- A project whose only `views.py` lies under a test directory and
handles uploads without the documented Magika validator. -/
def env_c4 : Env :=
  { tree := [⟨"tests/views.py", "FileField"⟩]
  , magikaConfig := { validation_function := some "validate_with_magika" } }

/-- An issue that proposes a model named `User`. -/
def d_c2 : String := "Add model User for user profiles #7"

/-- A project that already defines `class User` in a `models.py`. -/
def env_c2 : Env := { tree := [⟨"app/models.py", "class User(models.Model):\n    pass"⟩] }

/-- A file containing every usage signal together with all three required
symbols. -/
def f_c7 : PyFile :=
  ⟨"app/views.py", "email FileField print( GlobalPIIMasker validate_with_magika get_logger"⟩

/-! ## Claim theorems -/

/-- C1: if a single run produces both a non-empty documentation-discrepancy
list and a non-empty unrelated-finding list, the controller returns the
`documentation_mismatch` outcome and never `unrelated_issues_found`:
step 5 of `work_on_issue` tests the discrepancies before step 6 ever runs
the scanner. -/
theorem c1_docfix_priority (env : Env) (shuffle : List String → List String) (d : String)
    (hd : validate_documentation_against_code env ≠ [])
    (_hf : scan_for_unrelated_issues env (parse_issue d) ≠ []) :
    (work_on_issue env shuffle d).status = "documentation_mismatch" ∧
    (work_on_issue env shuffle d).status ≠ "unrelated_issues_found" := by
  have h1 : (validate_documentation_against_code env).isEmpty = false :=
    isEmpty_false_of_ne_nil hd
  unfold work_on_issue
  simp only [h1, Bool.false_eq_true, if_false]
  rw [status_handle_docs]
  exact ⟨rfl, by decide⟩

/-- C1 witness: a concrete project where the PII checker and the TODO rule
both fire; the run returns `documentation_mismatch`. -/
theorem c1_docfix_priority_witness :
    (work_on_issue env_w1 (fun l => l.dedup) "GET /a").status = "documentation_mismatch" :=
  (c1_docfix_priority env_w1 (fun l => l.dedup) "GET /a" (by decide) (by decide)).1

/-- C2 (code bug): `_parse_issue` initialises `issue_data['models']` to the
empty list and no statement of the program ever appends to it, so
`_check_breaking_changes` iterates over nothing and returns the empty list
for every issue and every tree; on the concrete issue `d_c2`, which
proposes model `User` while `env_c2`'s `app/models.py` already defines
`class User`, the run therefore halts with `need_clarification` instead of
the `breaking_changes_warning` the claim requires. -/
theorem c2_breaking_change_stage_dead (env : Env) (d : String) :
    (parse_issue d).models = [] ∧
    check_breaking_changes env (parse_issue d) = [] ∧
    strContains "class User(models.Model):\n    pass" "class User" = true ∧
    check_breaking_changes env_c2 (parse_issue d_c2) = [] ∧
    (work_on_issue env_c2 (fun l => l.dedup) d_c2).status = "need_clarification" :=
  ⟨rfl, rfl, by decide, rfl, by decide⟩

/-- C3 counterexample: the line `c3_line` satisfies the hardcoded-password
condition (with no environment lookup), yet scanning it yields two
SECURITY/critical findings, not exactly one — the SQL-injection rule fires
on the same line. -/
theorem c3_counterexample :
    pw_condition c3_line = true ∧
    ((scan_line "app/views.py" 1 c3_line).filter
      (fun i => i.type == IssueType.security && i.severity == "critical")).length = 2 := by
  decide

/-- Predicate selecting exactly the findings of the hardcoded-password
rule: kind SECURITY with that rule's fixed description (such findings are
critical by construction). -/
def is_hardcoded_pw_finding (i : UnrelatedIssue) : Bool :=
  match i.type with
  | IssueType.security =>
    i.severity == "critical" && i.description == "Hardcoded password detected"
  | _ => false

/-- C3 amended: for every line matching the hardcoded-password pattern
without an environment lookup, scanning yields exactly one Finding of the
hardcoded-password rule (kind SECURITY, severity critical, description
"Hardcoded password detected") for that line; other rules on the same line
may contribute further SECURITY/critical findings. -/
theorem c3_password_rule_exactly_once (file : String) (ln : Nat) (line : String)
    (h : pw_condition line = true) :
    ((scan_line file ln line).filter is_hardcoded_pw_finding).length = 1 := by
  unfold scan_line
  rw [h, if_pos rfl]
  split_ifs <;> rfl

/-- C3 amended witness at a concrete hardcoded-password line. -/
theorem c3_password_rule_exactly_once_witness :
    pw_condition "db_password=\"secret\"" = true ∧
    ((scan_line "settings.py" 3 "db_password=\"secret\"").filter
      is_hardcoded_pw_finding).length = 1 :=
  ⟨by decide, c3_password_rule_exactly_once "settings.py" 3 "db_password=\"secret\"" (by decide)⟩

/-- C4 counterexample: in `env_c4` the only file of the tree is
`tests/views.py`, which lies under a test path, yet the consistency check
produces a discrepancy — `_validate_magika_usage` has no test-path skip. -/
theorem c4_counterexample :
    strContains "tests/views.py" "test" = true ∧
    (validate_documentation_against_code env_c4).length = 1 ∧
    (validate_magika_usage env_c4).length = 1 := by
  decide

/-- C4 amended: the PII and logging validators skip every file whose path
contains "test" (the logging validator also skips "migration" paths), but
the upload/Magika validator scans all `views.py` files, test paths
included. -/
theorem c4_test_skip_pii_logging_only (piiCfg : PiiConfig) (lCfg : LoggingConfig) (f : PyFile)
    (h : strContains f.path "test" = true) :
    pii_file_check piiCfg f = [] ∧ logging_file_check lCfg f = [] := by
  constructor
  · unfold pii_file_check
    simp [h]
  · unfold logging_file_check
    simp [h]

/-- C4 amended witness: a test-path file full of usage signals produces
nothing in the PII and logging validators. -/
theorem c4_test_skip_pii_logging_only_witness :
    strContains "app/tests/models.py" "test" = true ∧
    pii_file_check {} ⟨"app/tests/models.py", "email print("⟩ = [] ∧
    logging_file_check {} ⟨"app/tests/models.py", "email print("⟩ = [] :=
  ⟨by decide,
   (c4_test_skip_pii_logging_only {} {} ⟨"app/tests/models.py", "email print("⟩ (by decide)).1,
   (c4_test_skip_pii_logging_only {} {} ⟨"app/tests/models.py", "email print("⟩ (by decide)).2⟩

/-- C5: on the scenario issue text with no documentation at all, the
pipeline parses issue number "42" and the PII flag, produces no
discrepancies and no findings, and halts at the clarification stage with
the PII question (the logging question also fires, since no logging docs
exist either). -/
theorem c5_scenario_pii_clarification :
    (parse_issue d_c5).number = some "42" ∧
    (parse_issue d_c5).has_pii = true ∧
    validate_documentation_against_code env_c5 = [] ∧
    scan_for_unrelated_issues env_c5 (parse_issue d_c5) = [] ∧
    work_on_issue env_c5 (fun l => l.dedup) d_c5 =
      Outcome.needClarification
        ["How should PII be handled? I didn\x27t find PII masking docs.",
         "What logging system should I use? I didn\x27t find centralized logging docs."]
        "I need clarification on these points:" := by
  decide

/-- C6: the pipeline outcome does not depend on the enumeration order of
`list(set(features))` in `_extract_feature_names` — for any two
enumeration oracles that return a permutation of the deduplicated feature
list, the whole `PipelineOutcome` is identical, so two runs on an
unchanged tree and identical issue text agree bit for bit. -/
theorem c6_pipeline_deterministic (env : Env) (d : String)
    (s₁ s₂ : List String → List String)
    (h₁ : (s₁ (extract_feature_names env (parse_issue d))).Perm
          ((extract_feature_names env (parse_issue d)).dedup))
    (h₂ : (s₂ (extract_feature_names env (parse_issue d))).Perm
          ((extract_feature_names env (parse_issue d)).dedup)) :
    work_on_issue env s₁ d = work_on_issue env s₂ d := by
  have hc : featureDocsCount env (s₁ (extract_feature_names env (parse_issue d)))
      = featureDocsCount env (s₂ (extract_feature_names env (parse_issue d))) :=
    featureDocsCount_perm env (h₁.trans h₂.symm)
  unfold work_on_issue
  rw [hc]

/-- C6 witness: two concrete set enumerations (sorted-by-insertion and
reversed) give the same outcome on the scenario input. -/
theorem c6_pipeline_deterministic_witness :
    work_on_issue env_c5 (fun l => l.dedup) d_c5
      = work_on_issue env_c5 (fun l => l.dedup.reverse) d_c5 :=
  c6_pipeline_deterministic env_c5 d_c5 (fun l => l.dedup) (fun l => l.dedup.reverse)
    (List.Perm.refl _) (List.reverse_perm _)

/-- C7: when the documented required symbol of a topic occurs anywhere in
a file's text, that file produces no discrepancy for that topic, whatever
usage signals it contains — each validator tests
`required symbol not in content` before emitting. -/
theorem c7_required_symbol_suppresses (piiCfg : PiiConfig) (mCfg : MagikaConfig)
    (lCfg : LoggingConfig) (f : PyFile) (m v g : String)
    (hm : piiCfg.masking_function = some m) (hv : mCfg.validation_function = some v)
    (hg : lCfg.logger_function = some g)
    (h1 : strContains f.content m = true) (h2 : strContains f.content v = true)
    (h3 : strContains f.content g = true) :
    pii_file_check piiCfg f = [] ∧ magika_file_check mCfg f = [] ∧
    logging_file_check lCfg f = [] := by
  refine ⟨?_, ?_, ?_⟩
  · unfold pii_file_check
    rw [hm]
    simp [h1]
  · unfold magika_file_check
    rw [hv]
    simp [h2]
  · unfold logging_file_check
    rw [hg]
    simp [h3]

/-- C7 witness: a file containing all three usage signals together with
all three required symbols yields no discrepancy from any validator. -/
theorem c7_required_symbol_suppresses_witness :
    pii_file_check { masking_function := some "GlobalPIIMasker" } f_c7 = [] ∧
    magika_file_check { validation_function := some "validate_with_magika" } f_c7 = [] ∧
    logging_file_check { logger_function := some "get_logger" } f_c7 = [] :=
  c7_required_symbol_suppresses
    { masking_function := some "GlobalPIIMasker" }
    { validation_function := some "validate_with_magika" }
    { logger_function := some "get_logger" } f_c7
    "GlobalPIIMasker" "validate_with_magika" "get_logger"
    rfl rfl rfl (by decide) (by decide) (by decide)

/-- C8: a topic absent from the documentation model (its required symbol
was not located) never yields a discrepancy of its own — its validator is
not even invoked — so absence of all policy documents makes the
discrepancy list empty and the `documentation_mismatch` outcome
impossible; instead, the absence resurfaces as the corresponding
clarification question (for PII when the issue touches PII, for uploads
when the issue mentions uploads, for logging unconditionally). -/
theorem c8_absent_topic_degrades_to_question (env : Env)
    (shuffle : List String → List String) (d : String) :
    (env.piiConfig.masking_function = none →
      ∀ disc ∈ validate_documentation_against_code env,
        disc.doc_file ≠ "docs/security/pii_masking.md") ∧
    (env.magikaConfig.validation_function = none →
      ∀ disc ∈ validate_documentation_against_code env,
        disc.doc_file ≠ "docs/validation/magika.md") ∧
    (env.loggingConfig.logger_function = none →
      ∀ disc ∈ validate_documentation_against_code env,
        disc.doc_file ≠ "docs/infrastructure/logging.md") ∧
    (env.piiConfig.masking_function = none →
      env.magikaConfig.validation_function = none →
      env.loggingConfig.logger_function = none →
      validate_documentation_against_code env = [] ∧
      (work_on_issue env shuffle d).status ≠ "documentation_mismatch") ∧
    (env.piiConfig.masking_function = none → (parse_issue d).has_pii = true →
      "How should PII be handled? I didn\x27t find PII masking docs."
        ∈ get_clarification_questions env (parse_issue d)) ∧
    (env.magikaConfig.validation_function = none →
      strContains (pyLower d) "upload" = true →
      "Should uploaded files be validated? I didn\x27t find Magika docs."
        ∈ get_clarification_questions env (parse_issue d)) ∧
    (env.loggingConfig.logger_function = none →
      "What logging system should I use? I didn\x27t find centralized logging docs."
        ∈ get_clarification_questions env (parse_issue d)) := by
  refine ⟨?_, ?_, ?_, ?_, ?_, ?_, ?_⟩
  · intro hp disc hd
    rcases mem_validate_doc_file_cases env disc hd with ⟨_, hs⟩ | ⟨hdoc, _⟩ | ⟨hdoc, _⟩
    · rw [hp] at hs
      simp at hs
    · rw [hdoc]
      decide
    · rw [hdoc]
      decide
  · intro hm disc hd
    rcases mem_validate_doc_file_cases env disc hd with ⟨hdoc, _⟩ | ⟨_, hs⟩ | ⟨hdoc, _⟩
    · rw [hdoc]
      decide
    · rw [hm] at hs
      simp at hs
    · rw [hdoc]
      decide
  · intro hl disc hd
    rcases mem_validate_doc_file_cases env disc hd with ⟨hdoc, _⟩ | ⟨hdoc, _⟩ | ⟨_, hs⟩
    · rw [hdoc]
      decide
    · rw [hdoc]
      decide
    · rw [hl] at hs
      simp at hs
  · intro hp hm hl
    have hv : validate_documentation_against_code env = [] := by
      unfold validate_documentation_against_code
      rw [hp, hm, hl]
      rfl
    refine ⟨hv, ?_⟩
    unfold work_on_issue
    rw [hv]
    simp only [List.isEmpty_nil, ite_true]
    split_ifs
    · show ("approval_needed" : String) ≠ "documentation_mismatch"
      decide
    · show ("breaking_changes_warning" : String) ≠ "documentation_mismatch"
      decide
    · show ("need_clarification" : String) ≠ "documentation_mismatch"
      decide
    · show ("unrelated_issues_found" : String) ≠ "documentation_mismatch"
      decide
  · intro hp hpii
    have hmem := pii_question_mem env (parse_issue d) hpii
    unfold pii_question at hmem
    rw [hp] at hmem
    exact hmem
  · intro hm hup
    unfold get_clarification_questions
    rw [hm]
    have hd : strContains (pyLower (parse_issue d).description) "upload" = true := hup
    simp [hd, List.mem_append]
  · intro hl
    unfold get_clarification_questions
    simp [hl, List.mem_append]

/-- C8 witness: the scenario project has no documentation at all; no
discrepancy cites the PII document, the run is not a documentation
mismatch, and the PII and logging clarification questions appear. -/
theorem c8_absent_topic_degrades_to_question_witness :
    (∀ disc ∈ validate_documentation_against_code env_c5,
        disc.doc_file ≠ "docs/security/pii_masking.md") ∧
    (work_on_issue env_c5 (fun l => l.dedup) d_c5).status ≠ "documentation_mismatch" ∧
    "How should PII be handled? I didn\x27t find PII masking docs."
      ∈ get_clarification_questions env_c5 (parse_issue d_c5) ∧
    "What logging system should I use? I didn\x27t find centralized logging docs."
      ∈ get_clarification_questions env_c5 (parse_issue d_c5) := by
  have h := c8_absent_topic_degrades_to_question env_c5 (fun l => l.dedup) d_c5
  exact ⟨h.1 rfl, (h.2.2.2.1 rfl rfl rfl).2, h.2.2.2.2.1 rfl (by decide),
         h.2.2.2.2.2.2 rfl⟩

/-- C9: an issue whose description contains a PII keyword always yields a
PII clarification question (whether or not a masking policy is
documented), so if the run reaches the clarification stage the outcome is
`need_clarification`, and such an issue can never reach the
`approval_needed` outcome. -/
theorem c9_pii_blocks_approval (env : Env) (shuffle : List String → List String) (d : String)
    (h : (parse_issue d).has_pii = true) :
    (work_on_issue env shuffle d).status ≠ "approval_needed" ∧
    (validate_documentation_against_code env = [] →
      scan_for_unrelated_issues env (parse_issue d) = [] →
      (work_on_issue env shuffle d).status = "need_clarification" ∧
      pii_question env ∈ get_clarification_questions env (parse_issue d)) := by
  have hqm := pii_question_mem env (parse_issue d) h
  have hq : (get_clarification_questions env (parse_issue d)).isEmpty = false :=
    isEmpty_false_of_ne_nil (List.ne_nil_of_mem hqm)
  constructor
  · unfold work_on_issue
    simp only [hq, Bool.false_eq_true, ite_false]
    split_ifs
    · show ("need_clarification" : String) ≠ "approval_needed"
      decide
    · show ("unrelated_issues_found" : String) ≠ "approval_needed"
      decide
    · show ("documentation_mismatch" : String) ≠ "approval_needed"
      decide
  · intro hv hs
    refine ⟨?_, hqm⟩
    unfold work_on_issue
    rw [hv, hs]
    simp only [List.isEmpty_nil, ite_true]
    simp only [hq, Bool.false_eq_true, ite_false]
    rfl

/-- C9 witness: the scenario input touches personal data; its run cannot
be approved and in fact halts asking for clarification. -/
theorem c9_pii_blocks_approval_witness :
    (work_on_issue env_c5 (fun l => l.dedup) d_c5).status ≠ "approval_needed" ∧
    (work_on_issue env_c5 (fun l => l.dedup) d_c5).status = "need_clarification" := by
  have h := c9_pii_blocks_approval env_c5 (fun l => l.dedup) d_c5 (by decide)
  exact ⟨h.1, (h.2 (by decide) (by decide)).1⟩

/-- C10: when the issue text contains no endpoint pattern, the affected
file set is empty (the `models` branch of `_get_affected_files` is dead
because `_parse_issue` never fills `issue_data['models']`), so the scanner
produces no findings and the `unrelated_issues_found` outcome is
unreachable, whatever the tree contains. -/
theorem c10_no_endpoints_no_triage (env : Env) (shuffle : List String → List String)
    (d : String) (h : (parse_issue d).endpoints = []) :
    get_affected_files env (parse_issue d) = [] ∧
    scan_for_unrelated_issues env (parse_issue d) = [] ∧
    (work_on_issue env shuffle d).status ≠ "unrelated_issues_found" := by
  have haff : get_affected_files env (parse_issue d) = [] := by
    unfold get_affected_files
    rw [h, parse_issue_models]
    rfl
  have hscan : scan_for_unrelated_issues env (parse_issue d) = [] := by
    unfold scan_for_unrelated_issues
    rw [haff]
    rfl
  refine ⟨haff, hscan, ?_⟩
  unfold work_on_issue
  rw [hscan]
  simp only [List.isEmpty_nil, ite_true]
  split_ifs
  · show ("approval_needed" : String) ≠ "unrelated_issues_found"
    decide
  · show ("breaking_changes_warning" : String) ≠ "unrelated_issues_found"
    decide
  · show ("need_clarification" : String) ≠ "unrelated_issues_found"
    decide
  · show ("documentation_mismatch" : String) ≠ "unrelated_issues_found"
    decide

/-- C10 witness: a plain documentation issue with no endpoint pattern, on
a tree that does contain source files, cannot produce issue triage. -/
theorem c10_no_endpoints_no_triage_witness :
    (work_on_issue env_c2 (fun l => l.dedup) "Fix typo in README").status
      ≠ "unrelated_issues_found" :=
  (c10_no_endpoints_no_triage env_c2 (fun l => l.dedup) "Fix typo in README" (by decide)).2.2
